import Mathlib

/-!
Shallow embedding of the Aotu_Project pipeline
(`src/scripts/data_collection/mp_download_fin.py` and
`src/archive/auto_generator_fin5.py`), together with proofs about it.

Conventions of the embedding:
* Python floats are modelled as exact rationals (`ℚ`).
* Python exceptions are modelled with `Except String`; a `try/except`
  wrapper turns the error into the string the code produces.
* External collaborators (the Materials Project client, the text-generation
  service, `numpy.polyfit`) are opaque oracles passed as parameters.
* The filesystem is a partial map from path to file value.
-/

namespace Aotu

/-- Spin channel, mirroring `pymatgen.electronic_structure.core.Spin`. -/
inductive Spin : Type
  | up
  | down
deriving DecidableEq, Repr

/-- `p` is a prefix of the first list. -/
def listStartsWith : List Char → List Char → Bool
  | _, [] => true
  | [], _ :: _ => false
  | c :: cs, p :: ps => c = p && listStartsWith cs ps

/-- `p` occurs contiguously inside the first list. -/
def listHasSub : List Char → List Char → Bool
  | [], p => listStartsWith [] p
  | c :: cs, p => listStartsWith (c :: cs) p || listHasSub cs p

/-- `pat` occurs as a contiguous substring of `s` (Python `pat in s`). -/
def strContains (s pat : String) : Bool :=
  listHasSub s.toList pat.toList

/-- `s` starts with `pat`. -/
def strStartsWith (s pat : String) : Bool :=
  listStartsWith s.toList pat.toList

/-- `s` ends with `suffix` (Python `s.endswith(suffix)`). -/
def strEndsWith (s suffix : String) : Bool :=
  listStartsWith s.toList.reverse suffix.toList.reverse

/-- Python `s.split(sep)[0]` for a one-character separator: the part of `s`
before the first occurrence of `sep` (all of `s` when `sep` is absent). -/
def splitFirst (sep : Char) (s : String) : String :=
  String.mk (s.toList.takeWhile (fun c => c ≠ sep))

/-- Python list slicing `l[start:stop]` for already-clamped bounds
`0 ≤ start`, `stop ≤ len` (the code clamps with `max`/`min` first). -/
def slice (l : List α) (start stop : Int) : List α :=
  (l.drop start.toNat).take (stop.toNat - start.toNat)

/-! ## Effective-mass estimation (`calc_effective_mass`, auto_generator_fin5.py:85-123) -/

/-- The window-bound computation of `calc_effective_mass`
(auto_generator_fin5.py:94-105): a 5-point window around `k_idx`,
re-centered at either array boundary, then clamped into `[0, num_k]`.
Python integers are signed, so the arithmetic is over `Int`. -/
def windowBounds (num_k k_idx : Int) : Int × Int :=
  let window : Int := 5
  let half : Int := window / 2
  let (start, stop) :=
    if k_idx < half then (0, window)
    else if k_idx > num_k - half - 1 then (num_k - window, num_k)
    else (k_idx - half, k_idx + half + 1)
  (max 0 start, min num_k stop)

/-- Format a nonnegative rational to three decimal places
(Python `f"{x:.3f}"`, on the exact value). -/
def formatQ3 (q : ℚ) : String :=
  let n := (round (q * 1000)).toNat
  let ip := n / 1000
  let fp := n % 1000
  let pad := if fp < 10 then "00" else if fp < 100 then "0" else ""
  toString ip ++ "." ++ pad ++ toString fp

/-- The post-fit step of `calc_effective_mass` (auto_generator_fin5.py:114-120):
given the fitted leading quadratic coefficient `a`, return the very-heavy
sentinel when `|a| < 1e-4`, else the numeric string `|3.81 / a|` to three
decimals with the `m_e` unit suffix. -/
def massFromCoeff (a : ℚ) : String :=
  if |a| < 1 / 10000 then "Heavy (>10 m_e)"
  else formatQ3 |3.81 / a| ++ " m_e"

/-- A fit oracle standing for `numpy.polyfit(x, y, 2)`: given abscissae and
ordinates it returns the coefficient list (highest degree first) or raises. -/
def PolyFit : Type := List ℚ → List ℚ → Except String (List ℚ)

/-- The band-gap summary dictionary returned by `bs.get_band_gap()`:
keys `energy`, `transition` (may be a falsy value), `direct`. -/
structure BandGapData : Type where
  energy : ℚ
  transition : Option String
  direct : Bool

/-- The VBM/CBM info dictionary returned by `bs.get_vbm()` / `bs.get_cbm()`:
a per-spin band-index map and the fractional coordinates of the band-edge
k-point (`info['kpoint'].frac_coords`). -/
structure EdgeInfo : Type where
  band_index : Spin → Option (List Nat)
  kpoint : ℚ × ℚ × ℚ

/-- The reconstructed band-structure object (`BandStructureSymmLine`), an
external collaborator: per-spin band energies, k-path distances, k-point
fractional coordinates, and the derived helpers the code calls
(`is_metal()`, `get_band_gap()`, `get_vbm()`, `get_cbm()`). -/
structure BSObject : Type where
  bands : Spin → List (List ℚ)
  distance : List ℚ
  kpoints : List (ℚ × ℚ × ℚ)
  is_metal : Bool
  band_gap : BandGapData
  vbm : EdgeInfo
  cbm : EdgeInfo

/-- Body of the `try` block of `calc_effective_mass`
(auto_generator_fin5.py:89-120): errors of this computation are the
exceptions the Python body can raise. -/
def calc_effective_mass_core (fit : PolyFit) (bs : BSObject)
    (band_idx : Nat) (k_idx : Int) (spin : Spin) : Except String String := do
  let energies ← match (bs.bands spin).get? band_idx with
    | some e => Except.ok e
    | none => Except.error "IndexError: list index out of range"
  let distances := bs.distance
  let num_k : Int := energies.length
  let p := windowBounds num_k k_idx
  let y := slice energies p.1 p.2
  let x := slice distances p.1 p.2
  if x.length < 3 then return "N/A (Points<3)"
  let coeffs ← fit x y
  let a ← match coeffs.get? 0 with
    | some a => Except.ok a
    | none => Except.error "IndexError: list index out of range"
  return massFromCoeff a

/-- `calc_effective_mass` (auto_generator_fin5.py:85-123): the `try` body,
with any exception converted to the `"CalcErr"` sentinel. -/
def calc_effective_mass (fit : PolyFit) (bs : BSObject)
    (band_idx : Nat) (k_idx : Int) (spin : Spin) : String :=
  match calc_effective_mass_core fit bs band_idx k_idx spin with
  | Except.ok s => s
  | Except.error _ => "CalcErr"

/-! ## Feature extraction (`process_physics_data`, auto_generator_fin5.py:125-204) -/

/-- Squared Euclidean distance between two fractional-coordinate triples.
On exact rationals, `np.linalg.norm(k - target) < 1e-3` holds iff
`distSq k target < 1e-6`. -/
def distSq (u v : ℚ × ℚ × ℚ) : ℚ :=
  (u.1 - v.1) ^ 2 + (u.2.1 - v.2.1) ^ 2 + (u.2.2 - v.2.2) ^ 2

/-- The k-point search loop of `analyze_band_edge`
(auto_generator_fin5.py:171-175), carrying the running index `i`. -/
def findKIndexFrom (target : ℚ × ℚ × ℚ) : List (ℚ × ℚ × ℚ) → Int → Int
  | [], _ => -1
  | k :: ks, i => if distSq k target < 1 / 1000000 then i else findKIndexFrom target ks (i + 1)

/-- Index of the first k-point within Euclidean distance `1e-3` of `target`;
`-1` when none matches (the loop leaves `k_idx = -1`). -/
def findKIndex (kpoints : List (ℚ × ℚ × ℚ)) (target : ℚ × ℚ × ℚ) : Int :=
  findKIndexFrom target kpoints 0

/-- `analyze_band_edge` (auto_generator_fin5.py:164-178), the helper nested
in `process_physics_data`: pick the spin channel (up preferred), read the
first band index (`info['band_index'][spin][0]`, which raises on an empty
list), locate the band-edge k-point, and compute the mass.  The error case
is the `IndexError` that propagates to the caller's `except`. -/
def analyze_band_edge (fit : PolyFit) (bs : BSObject) (info : EdgeInfo) :
    Except String String :=
  let spin := if (info.band_index Spin.up).isSome then Spin.up else Spin.down
  match info.band_index spin with
  | none => Except.ok "Unknown"
  | some idxs =>
    match idxs.head? with
    | none => Except.error "IndexError: list index out of range"
    | some band_idx =>
      let target := info.kpoint
      let k_idx := findKIndex bs.kpoints target
      Except.ok (if k_idx ≠ -1 then calc_effective_mass fit bs band_idx k_idx spin else "N/A")

/-- Python falsy-or: `bg_data['transition'] or "Unknown"` (both `None` and
the empty string are falsy). -/
def pyOrUnknown : Option String → String
  | none => "Unknown"
  | some t => if t = "" then "Unknown" else t

/-- The metal short-circuit context (auto_generator_fin5.py:146-152). -/
def metalContext (mp_id formula : String) : String :=
  "\n【定量计算结果】\n1. Material: " ++ mp_id ++ " (" ++ formula ++
  ")\n2. Electronic Type: Metal\n3. Band Gap: 0.0000 eV\n4. Dynamics: N/A (Metallic)\n"

/-- Format a nonnegative rational to four decimal places
(Python `f"{x:.4f}"`, on the exact value). -/
def formatQ4 (q : ℚ) : String :=
  let n := (round (q * 10000)).toNat
  let ip := n / 10000
  let fp := n % 10000
  let pad := if fp < 10 then "000" else if fp < 100 then "00" else if fp < 1000 then "0" else ""
  toString ip ++ "." ++ pad ++ toString fp

/-- The semiconductor/insulator context (auto_generator_fin5.py:185-200). -/
def semiContext (mp_id formula : String) (bg_val : ℚ) (is_direct : Bool)
    (trans_str vbm_mass cbm_mass : String) : String :=
  "\n【定量计算结果 (Computed Physical Properties)】\n1. **基本信息**:\n   - ID: " ++
  mp_id ++ " | Formula: " ++ formula ++
  "\n   - Type: Semiconductor/Insulator\n\n2. **带隙特征**:\n   - Gap: " ++
  formatQ4 bg_val ++ " eV\n   - Type: " ++
  (if is_direct then "Direct" else "Indirect") ++ "\n   - Path: " ++ trans_str ++
  "\n\n3. **动力学 (Effective Mass)**:\n   - Holes (VBM): " ++ vbm_mass ++
  "\n   - Electrons (CBM): " ++ cbm_mass ++ "\n   *(注: m* < 0.5 m_e 意味着高迁移率)*\n"

/-- The result of reading and JSON-parsing one cache file, as consumed by
`process_physics_data`: the two `data.get` fields and the outcome of
`BandStructureSymmLine.from_dict(data)` (an external collaborator that may
raise on malformed data). -/
structure LoadedData : Type where
  material_id : Option String
  formula_pretty : Option String
  fromDict : Except String BSObject

/-- Body of the outer `try` block of `process_physics_data`
(auto_generator_fin5.py:130-200).  Errors of this computation are exactly
the exceptions the Python body can raise past the inner handlers. -/
def process_physics_data_core (fit : PolyFit) (data : LoadedData) :
    Except String String := do
  let mp_id := data.material_id.getD "Unknown"
  let formula := data.formula_pretty.getD "Unknown"
  match data.fromDict with
  | Except.error e => return "Error: Invalid BandStructure Data (" ++ e ++ ")"
  | Except.ok bs =>
    if bs.is_metal then
      return metalContext mp_id formula
    else
      let bg_val := bs.band_gap.energy
      let trans_str := pyOrUnknown bs.band_gap.transition
      let is_direct := bs.band_gap.direct
      let vbm_mass ← analyze_band_edge fit bs bs.vbm
      let cbm_mass ← analyze_band_edge fit bs bs.cbm
      return semiContext mp_id formula bg_val is_direct trans_str vbm_mass cbm_mass

/-- `process_physics_data` (auto_generator_fin5.py:125-204): the `json.load`
outcome (`input`) and the `try` body, with any exception converted to
`"Error: <message>"` by the outer handler. -/
def process_physics_data (fit : PolyFit) (input : Except String LoadedData) : String :=
  match input >>= process_physics_data_core fit with
  | Except.ok s => s
  | Except.error e => "Error: " ++ e

/-! ## Acquisition stage (`mp_download_fin.py`) -/

/-- A summary document returned by `mpr.materials.summary.search`
(the requested fields). -/
structure SummaryDoc : Type where
  material_id : String
  formula_pretty : String
  symmetry_symbol : String
  symmetry_number : Int

/-- One entry of `bs_sc.labels_dict` after conversion
(mp_download_fin.py:93-99). -/
structure KLabel : Type where
  frac_coords : List ℚ
  label : String

/-- The band-structure payload returned by
`mpr.get_bandstructure_by_material_id`: the attributes the dump reads. -/
structure BandPayload : Type where
  efermi : ℚ
  nb_bands : Nat
  branches : List String
  distance : List ℚ
  is_metal : Bool
  band_gap : BandGapData
  spin_up : List (List ℚ)
  is_spin_polarized : Bool
  spin_down : List (List ℚ)
  labels_dict : List (String × KLabel)

/-- The merged metadata + band-structure dictionary `bs_dump`
(mp_download_fin.py:71-99); `spin_down` is present only for
spin-polarized payloads. -/
structure BsDump : Type where
  material_id : String
  formula_pretty : String
  symmetry_symbol : String
  symmetry_number : Int
  efermi : ℚ
  nb_bands : Nat
  branches : List String
  distance : List ℚ
  is_metal : Bool
  band_gap : BandGapData
  spin_up : List (List ℚ)
  spin_down : Option (List (List ℚ))
  labels_dict : List (String × KLabel)

/-- Build `bs_dump` from the summary doc and the payload
(mp_download_fin.py:71-99). -/
def makeDump (mp_id : String) (meta : SummaryDoc) (bs : BandPayload) : BsDump :=
  { material_id := mp_id
    formula_pretty := meta.formula_pretty
    symmetry_symbol := meta.symmetry_symbol
    symmetry_number := meta.symmetry_number
    efermi := bs.efermi
    nb_bands := bs.nb_bands
    branches := bs.branches
    distance := bs.distance
    is_metal := bs.is_metal
    band_gap := bs.band_gap
    spin_up := bs.spin_up
    spin_down := if bs.is_spin_polarized then some bs.spin_down else none
    labels_dict := bs.labels_dict }

/-- A file on disk: either a dumped material record (`json.dump(bs_dump)`)
or plain text (the error log; serialization details are out of scope). -/
inductive FileVal : Type
  | record (dump : BsDump)
  | text (s : String)

/-- The filesystem seen by the acquisition stage: path → file contents. -/
def AcqFS : Type := String → Option FileVal

/-- Whole-file write (under the process-wide `write_lock`). -/
def writeFS (fs : AcqFS) (path : String) (v : FileVal) : AcqFS :=
  fun p => if p = path then some v else fs p

/-- Append one line to `download_errors.log` (created when absent), as in
mp_download_fin.py:114-116. -/
def appendLog (fs : AcqFS) (line : String) : AcqFS :=
  let old := match fs "download_errors.log" with
    | some (FileVal.text s) => s
    | _ => ""
  writeFS fs "download_errors.log" (FileVal.text (old ++ line))

/-- A network access made by the acquisition stage. -/
inductive NetCall : Type
  | summarySearch (mp_id : String)
  | getBandstructure (mp_id : String)

/-- The identifier a network call is about. -/
def NetCall.mpId : NetCall → String
  | NetCall.summarySearch i => i
  | NetCall.getBandstructure i => i

/-- The Materials Project client (`MPRester`), an external collaborator;
each method may raise. -/
structure MPOracle : Type where
  summarySearch : String → Except String (List SummaryDoc)
  getBandstructure : String → Except String (Option BandPayload)

/-- Outcome taxonomy of `download_single_material_data`. -/
inductive DLStatus : Type
  | success
  | skipped
  | filtered
  | failed
  | error
deriving DecidableEq, Repr

/-- The result dictionary of `download_single_material_data`. -/
structure DLResult : Type where
  mp_id : String
  status : DLStatus
  reason : Option String
deriving DecidableEq, Repr

/-- The deterministic cache path derived solely from the identifier
(mp_download_fin.py:36). -/
def outputFile (output_dir mp_id : String) : String :=
  output_dir ++ "/" ++ mp_id ++ "_bandstructure.json"

/-- The `except` handler of `download_single_material_data`
(mp_download_fin.py:108-117): a known-benign substring is special-cased to
`filtered`; anything else is logged and classified `error`. -/
def dlExcept (fs : AcqFS) (mp_id err_msg : String) (calls : List NetCall) :
    DLResult × AcqFS × List NetCall :=
  if strContains err_msg "No setyawan_curtarolo" then
    (⟨mp_id, DLStatus.filtered, some "no k-path data"⟩, fs, calls)
  else
    (⟨mp_id, DLStatus.error, some err_msg⟩,
     appendLog fs (mp_id ++ ": " ++ err_msg ++ "\n"), calls)

/-- `download_single_material_data` (mp_download_fin.py:30-117), returning
the result dictionary, the filesystem after the call, and the list of
network accesses performed. -/
def download_single_material_data (mpr : MPOracle) (fs : AcqFS)
    (output_dir mp_id : String) : DLResult × AcqFS × List NetCall :=
  let output_file := outputFile output_dir mp_id
  if (fs output_file).isSome then
    (⟨mp_id, DLStatus.skipped, some "exists"⟩, fs, [])
  else
    match mpr.summarySearch mp_id with
    | Except.error e => dlExcept fs mp_id e [NetCall.summarySearch mp_id]
    | Except.ok [] =>
      (⟨mp_id, DLStatus.failed, some "material not found in summary"⟩, fs,
       [NetCall.summarySearch mp_id])
    | Except.ok (meta :: _) =>
      match mpr.getBandstructure mp_id with
      | Except.error e =>
        dlExcept fs mp_id e [NetCall.summarySearch mp_id, NetCall.getBandstructure mp_id]
      | Except.ok none =>
        (⟨mp_id, DLStatus.filtered, some "no bandstructure data available"⟩, fs,
         [NetCall.summarySearch mp_id, NetCall.getBandstructure mp_id])
      | Except.ok (some bs) =>
        (⟨mp_id, DLStatus.success, none⟩,
         writeFS fs output_file (FileVal.record (makeDump mp_id meta bs)),
         [NetCall.summarySearch mp_id, NetCall.getBandstructure mp_id])

/-- The per-category counters of `batch_download_bandstructures`
(mp_download_fin.py:122-128). -/
structure BatchCounters : Type where
  success : Nat
  skipped : Nat
  filtered : Nat
  failed : Nat
  error : Nat
deriving DecidableEq, Repr

/-- `results[status] += 1` (mp_download_fin.py:144-147; the `else` branch
is unreachable because every produced status is one of the five keys). -/
def tally (c : BatchCounters) : DLStatus → BatchCounters
  | DLStatus.success => { c with success := c.success + 1 }
  | DLStatus.skipped => { c with skipped := c.skipped + 1 }
  | DLStatus.filtered => { c with filtered := c.filtered + 1 }
  | DLStatus.failed => { c with failed := c.failed + 1 }
  | DLStatus.error => { c with error := c.error + 1 }

/-- Sum of the five per-category counters. -/
def countersSum (c : BatchCounters) : Nat :=
  c.success + c.skipped + c.filtered + c.failed + c.error

/-- The band-structure cache directory (`paths.BAND_DIR`; the concrete
path layout is configuration, out of scope). -/
def BAND_DIR : String := "data/bandstructures"

/-- `batch_download_bandstructures` (mp_download_fin.py:119-164): every
identifier is processed once and folded into the counters; the worker pool
is modelled by sequential processing (each task touches only its own
output path, and writes are serialized by `write_lock`). -/
def batch_download_bandstructures (mpr : MPOracle) :
    AcqFS → List String → BatchCounters × AcqFS × List NetCall
  | fs, [] => (⟨0, 0, 0, 0, 0⟩, fs, [])
  | fs, i :: ids =>
    let r := download_single_material_data mpr fs BAND_DIR i
    let rest := batch_download_bandstructures mpr r.2.1 ids
    (tally rest.1 r.1.status, rest.2.1, r.2.2 ++ rest.2.2)

/-! ## Generation orchestration (`auto_generator_fin5.py`, main flow) -/

/-- The case-output directory (`paths.CASE_DIR`; path layout is
configuration, out of scope). -/
def CASE_DIR : String := "data/case_outputs"

/-- `INPUT_DIR = BAND_DIR` (auto_generator_fin5.py:19). -/
def INPUT_DIR : String := BAND_DIR

/-- `OUTPUT_DIR = CASE_DIR` (auto_generator_fin5.py:20). -/
def OUTPUT_DIR : String := CASE_DIR

/-- `MAX_BATCH_SIZE = 5` (auto_generator_fin5.py:21). -/
def MAX_BATCH_SIZE : Nat := 5

/-- A role-tagged conversation entry. -/
structure Message : Type where
  role : String
  content : String
deriving DecidableEq

/-- Round-1 prompt template (auto_generator_fin5.py:32-51).  The Markdown
template text is out of scope and modelled as an opaque constant; no
property proved here depends on its content. -/
def PROMPT_1 : String := "PROMPT_1"

/-- Round-2 prompt template (auto_generator_fin5.py:53-81), likewise an
opaque constant. -/
def PROMPT_2 : String := "PROMPT_2"

/-- The fixed system instruction opening every conversation
(auto_generator_fin5.py:242). -/
def systemMessage : Message :=
  ⟨"system", "你是一个严谨的计算材料学专家，只依据提供的计算事实说话。"⟩

/-- Conversation history sent at round 1 (auto_generator_fin5.py:242-248). -/
def round1Messages (llm_context : String) : List Message :=
  [systemMessage, ⟨"user", PROMPT_1 ++ "\n\n" ++ llm_context⟩]

/-- Conversation history sent at round 2 (auto_generator_fin5.py:253-259). -/
def round2Messages (llm_context resp_1 : String) : List Message :=
  round1Messages llm_context ++ [⟨"assistant", resp_1⟩, ⟨"user", PROMPT_2⟩]

/-- The text-generation collaborator (`call_qwen_api`): history in, text
out, `none` on any failure (non-OK status or exception). -/
def QwenApi : Type := List Message → Option String

/-- The filesystem seen by the generation stage: path → markdown text. -/
def GenFS : Type := String → Option String

/-- Whole-file write of the round-2 reply (auto_generator_fin5.py:266-267). -/
def writeGenFS (fs : GenFS) (path body : String) : GenFS :=
  fun p => if p = path then some body else fs p

/-- `json_filename.split('_')[0].split('.')[0]`
(auto_generator_fin5.py:227 and 292). -/
def extractMpId (json_filename : String) : String :=
  splitFirst '.' (splitFirst '_' json_filename)

/-- The deterministic artifact path derived solely from the filename
(auto_generator_fin5.py:229). -/
def mdPathOf (json_filename : String) : String :=
  OUTPUT_DIR ++ "/" ++ extractMpId json_filename ++ ".md"

/-- The physics context computed for one input file
(auto_generator_fin5.py:228-234). -/
def contextOf (fit : PolyFit) (loadFile : String → Except String LoadedData)
    (json_filename : String) : String :=
  process_physics_data fit (loadFile (INPUT_DIR ++ "/" ++ json_filename))

/-- `process_single_file` (auto_generator_fin5.py:226-272), returning the
success flag, the filesystem after the call, and the histories sent to the
collaborator.  `loadFile` stands for reading and JSON-parsing a cache file. -/
def process_single_file (fit : PolyFit) (loadFile : String → Except String LoadedData)
    (api : QwenApi) (fs : GenFS) (json_filename : String) :
    Bool × GenFS × List (List Message) :=
  let md_path := mdPathOf json_filename
  let llm_context := contextOf fit loadFile json_filename
  if strContains llm_context "Error" then (false, fs, [])
  else
    let h1 := round1Messages llm_context
    match api h1 with
    | none => (false, fs, [h1])
    | some resp_1 =>
      let h2 := round2Messages llm_context resp_1
      match api h2 with
      | none => (false, fs, [h1, h2])
      | some resp_2 => (true, writeGenFS fs md_path resp_2, [h1, h2])

/-- The `.json` filter over the input-directory listing
(auto_generator_fin5.py:279). -/
def allJsons (input_listing : List String) : List String :=
  input_listing.filter (fun f => strEndsWith f ".json")

/-- The already-processed identifier set derived from the output-directory
listing (auto_generator_fin5.py:285-286). -/
def processedIds (output_listing : List String) : List String :=
  (output_listing.filter (fun f => strEndsWith f ".md")).map (fun f => splitFirst '.' f)

/-- The pending/skipped split of the scan loop
(auto_generator_fin5.py:288-296): first component is `pending_files`,
the second's length is `skipped_count_init`. -/
def pendingSplit (input_listing output_listing : List String) :
    List String × List String :=
  (allJsons input_listing).partition
    (fun f => !((processedIds output_listing).contains (extractMpId f)))

/-- The per-file loop of `main` (auto_generator_fin5.py:309-320):
fold over the target files, counting successes and failures. -/
def runBatch (fit : PolyFit) (loadFile : String → Except String LoadedData)
    (api : QwenApi) : GenFS → List String → Nat × Nat × GenFS
  | fs, [] => (0, 0, fs)
  | fs, f :: rest =>
    let r := process_single_file fit loadFile api fs f
    let t := runBatch fit loadFile api r.2.1 rest
    (if r.1 then t.1 + 1 else t.1, if r.1 then t.2.1 else t.2.1 + 1, t.2.2)

/-- `main` of the generation stage (auto_generator_fin5.py:274-328),
returning the counters of the final batch report
`(count_success, count_failed, skipped_count_init)`; `none` when the run
returns before printing the report (empty input directory, or nothing
pending). -/
def main_generation (fit : PolyFit) (loadFile : String → Except String LoadedData)
    (api : QwenApi) (fs : GenFS) (input_listing output_listing : List String) :
    Option (Nat × Nat × Nat) :=
  let jsons := allJsons input_listing
  if jsons.isEmpty then none
  else
    let split := pendingSplit input_listing output_listing
    let pending_files := split.1
    let skipped_count_init := split.2.length
    if pending_files.length = 0 then none
    else
      let target_files :=
        if MAX_BATCH_SIZE ≠ 0 then pending_files.take MAX_BATCH_SIZE else pending_files
      let r := runBatch fit loadFile api fs target_files
      some (r.1, r.2.1, skipped_count_init)

/-! ## Concrete sample data used to exercise the model -/

/-- A band-edge info with no spin channel present. -/
def infoW : EdgeInfo := ⟨fun _ => none, (0, 0, 0)⟩

/-- A small non-metallic band structure: one band of three k-points. -/
def bsW : BSObject :=
  { bands := fun _ => [[0, 0, 0]]
    distance := [0, 0, 0]
    kpoints := []
    is_metal := false
    band_gap := ⟨0, none, false⟩
    vbm := infoW
    cbm := infoW }

/-- A band structure whose band has only two k-points. -/
def bsShortW : BSObject :=
  { bands := fun _ => [[0, 0]]
    distance := [0, 0]
    kpoints := []
    is_metal := false
    band_gap := ⟨0, none, false⟩
    vbm := infoW
    cbm := infoW }

/-- A metallic band structure. -/
def bsMetalW : BSObject :=
  { bands := fun _ => []
    distance := []
    kpoints := []
    is_metal := true
    band_gap := ⟨0, none, false⟩
    vbm := infoW
    cbm := infoW }

/-- A fit oracle that always raises (never consulted in the tests using it). -/
def fitErrW : PolyFit := fun _ _ => Except.error "unused"

/-- A fit oracle returning a near-zero leading coefficient. -/
def fitHeavyW : PolyFit := fun _ _ => Except.ok [1 / 20000]

/-- A parsed metallic record. -/
def dataMetalW : LoadedData := ⟨some "mp-7", some "Si", Except.ok bsMetalW⟩

/-- A loader that always yields the metallic record. -/
def loadMetalW : String → Except String LoadedData := fun _ => Except.ok dataMetalW

/-- A collaborator that always answers. -/
def apiOkW : QwenApi := fun _ => some "RESPONSE"

/-- A collaborator that always fails. -/
def apiFailW : QwenApi := fun _ => none

/-- The empty generation-stage filesystem. -/
def emptyGenFS : GenFS := fun _ => none

/-- The empty acquisition-stage filesystem. -/
def emptyAcqFS : AcqFS := fun _ => none

/-- A client whose summary lookup finds nothing. -/
def mprNotFoundW : MPOracle := ⟨fun _ => Except.ok [], fun _ => Except.ok none⟩

/-- A sample summary document. -/
def metaW : SummaryDoc := ⟨"mp-1", "Si", "Fd-3m", 227⟩

/-- A client whose summary lookup succeeds but whose band-structure
payload is null. -/
def mprNoBandW : MPOracle := ⟨fun _ => Except.ok [metaW], fun _ => Except.ok none⟩

/-- A filesystem already holding the cache file of `mp-1`. -/
def fsWithFileW : AcqFS :=
  fun p => if p = outputFile BAND_DIR "mp-1" then some (FileVal.text "cached") else none

/-- Six pending input files. -/
def jsons6 : List String :=
  ["mp-1.json", "mp-2.json", "mp-3.json", "mp-4.json", "mp-5.json", "mp-6.json"]

/-! ## Helper lemmas -/

theorem windowBounds_spec (num_k k_idx s e : Int) (h3 : 3 ≤ num_k)
    (h0 : 0 ≤ k_idx) (hk : k_idx < num_k)
    (heq : windowBounds num_k k_idx = (s, e)) :
    0 ≤ s ∧ s < e ∧ e ≤ num_k ∧ 3 ≤ e - s := by
  unfold windowBounds at heq
  norm_num at heq
  split_ifs at heq with h1 h2 <;>
    simp only [Prod.mk.injEq] at heq <;>
    obtain ⟨hs, he⟩ := heq <;>
    subst hs <;> subst he <;>
    refine ⟨?_, ?_, ?_, ?_⟩ <;> omega

theorem slice_length_le (l : List α) (s e : Int) :
    (slice l s e).length ≤ l.length := by
  simp only [slice, List.length_take, List.length_drop]
  omega

theorem slice_length_eq (l : List α) (s e : Int) (h0 : 0 ≤ s) (hse : s ≤ e)
    (he : e ≤ (l.length : Int)) :
    (slice l s e).length = (e - s).toNat := by
  simp only [slice, List.length_take, List.length_drop]
  omega

theorem listStartsWith_nil (l : List Char) : listStartsWith l [] = true := by
  cases l <;> rfl

theorem listStartsWith_append (l t p : List Char)
    (h : listStartsWith l p = true) : listStartsWith (l ++ t) p = true := by
  induction p generalizing l with
  | nil => exact listStartsWith_nil _
  | cons c ps ih =>
    cases l with
    | nil => simp [listStartsWith] at h
    | cons d ds =>
      simp only [listStartsWith, Bool.and_eq_true] at h
      simp only [List.cons_append, listStartsWith, Bool.and_eq_true]
      exact ⟨h.1, ih ds h.2⟩

theorem listHasSub_nil (t : List Char) : listHasSub t [] = true := by
  cases t <;> rfl

theorem listHasSub_append_right (s t p : List Char)
    (h : listHasSub s p = true) : listHasSub (s ++ t) p = true := by
  induction s with
  | nil =>
    cases p with
    | nil => exact listHasSub_nil t
    | cons c ps => simp [listHasSub, listStartsWith] at h
  | cons c cs ih =>
    simp only [listHasSub, Bool.or_eq_true] at h
    simp only [List.cons_append, listHasSub, Bool.or_eq_true]
    rcases h with h | h
    · exact Or.inl (listStartsWith_append _ _ _ h)
    · exact Or.inr (ih h)

theorem listHasSub_append_left (s t p : List Char)
    (h : listHasSub t p = true) : listHasSub (s ++ t) p = true := by
  induction s with
  | nil => exact h
  | cons c cs ih =>
    simp only [List.cons_append, listHasSub, Bool.or_eq_true]
    exact Or.inr ih

theorem string_toList_append (a b : String) :
    (a ++ b).toList = a.toList ++ b.toList := by
  cases a; cases b; rfl

theorem strContains_append_left (a b pat : String)
    (h : strContains b pat = true) : strContains (a ++ b) pat = true := by
  unfold strContains at h ⊢
  rw [string_toList_append]
  exact listHasSub_append_left _ _ _ h

theorem strStartsWith_append (a b pat : String)
    (h : strStartsWith a pat = true) : strStartsWith (a ++ b) pat = true := by
  unfold strStartsWith at h ⊢
  rw [string_toList_append]
  exact listStartsWith_append _ _ _ h

/-! ## Claim theorems -/

/-- C3: for every band-energy sequence of length `num_k ≥ 3` and every valid
band-edge k-index `0 ≤ k_idx < num_k`, the window selection produces slice
bounds `0 ≤ start < end ≤ num_k` with `end - start ≥ 3`, so the quadratic fit
receives at least 3 points; and when fewer than 3 points are available the
function returns the insufficient-points sentinel (and never raises: the
sentinel is produced without consulting the fit oracle). -/
theorem effective_mass_window_bounds (fit : PolyFit) (bs : BSObject)
    (band_idx : Nat) (k_idx : Int) (spin : Spin) (energies : List ℚ)
    (hb : (bs.bands spin).get? band_idx = some energies)
    (hd : bs.distance.length = energies.length) :
    (0 ≤ k_idx → k_idx < (energies.length : Int) → 3 ≤ energies.length →
      ∃ s e, windowBounds (energies.length : Int) k_idx = (s, e) ∧
        0 ≤ s ∧ s < e ∧ e ≤ (energies.length : Int) ∧ 3 ≤ e - s ∧
        (slice bs.distance s e).length = (e - s).toNat ∧
        3 ≤ (slice bs.distance s e).length ∧
        3 ≤ (slice energies s e).length) ∧
    (energies.length < 3 →
      calc_effective_mass fit bs band_idx k_idx spin = "N/A (Points<3)") := by
  constructor
  · intro h0 hk h3
    rcases hw : windowBounds (energies.length : Int) k_idx with ⟨s, e⟩
    obtain ⟨hs0, hse, hen, hlen⟩ :=
      windowBounds_spec _ _ _ _ (by exact_mod_cast h3) h0 hk hw
    have hd3 : (slice bs.distance s e).length = (e - s).toNat := by
      apply slice_length_eq _ _ _ hs0 (le_of_lt hse)
      rw [hd]; exact hen
    have he3 : (slice energies s e).length = (e - s).toNat :=
      slice_length_eq _ _ _ hs0 (le_of_lt hse) hen
    refine ⟨s, e, rfl, hs0, hse, hen, hlen, hd3, ?_, ?_⟩ <;> omega
  · intro hlt
    have hx : (slice bs.distance
        (windowBounds (energies.length : Int) k_idx).1
        (windowBounds (energies.length : Int) k_idx).2).length < 3 := by
      have h := slice_length_le bs.distance
        (windowBounds (energies.length : Int) k_idx).1
        (windowBounds (energies.length : Int) k_idx).2
      omega
    unfold calc_effective_mass calc_effective_mass_core
    rw [hb]
    simp only [bind, Except.bind, hx, if_true, pure, Except.pure]

/-- C3 witness: a two-point band yields the insufficient-points sentinel. -/
theorem effective_mass_window_bounds_witness :
    calc_effective_mass fitErrW bsShortW 0 0 Spin.up = "N/A (Points<3)" :=
  (effective_mass_window_bounds fitErrW bsShortW 0 0 Spin.up [0, 0] rfl rfl).2
    (by decide)

theorem append_m_e_ne_heavy (s : String) : s ++ " m_e" ≠ "Heavy (>10 m_e)" := by
  intro h
  have h2 : (s ++ " m_e").toList.getLast? =
      ("Heavy (>10 m_e)" : String).toList.getLast? := by rw [h]
  rw [string_toList_append, List.getLast?_append] at h2
  simp at h2

/-- C4: whenever the fitted leading quadratic coefficient `a` has magnitude
below the fixed threshold `1e-4`, the effective-mass estimator returns the
very-heavy sentinel `"Heavy (>10 m_e)"` and performs no division by `a`;
the division `m* = 3.81 / a` is executed only when `|a|` is at or above the
threshold. -/
theorem near_zero_coefficient_guard (fit : PolyFit) (bs : BSObject)
    (band_idx : Nat) (k_idx : Int) (spin : Spin) (energies : List ℚ)
    (a : ℚ) (rest : List ℚ)
    (hb : (bs.bands spin).get? band_idx = some energies)
    (hlen : ¬ (slice bs.distance (windowBounds (energies.length : Int) k_idx).1
        (windowBounds (energies.length : Int) k_idx).2).length < 3)
    (hfit : fit (slice bs.distance (windowBounds (energies.length : Int) k_idx).1
          (windowBounds (energies.length : Int) k_idx).2)
        (slice energies (windowBounds (energies.length : Int) k_idx).1
          (windowBounds (energies.length : Int) k_idx).2) = Except.ok (a :: rest)) :
    (|a| < 1 / 10000 →
      calc_effective_mass fit bs band_idx k_idx spin = "Heavy (>10 m_e)") ∧
    (1 / 10000 ≤ |a| →
      calc_effective_mass fit bs band_idx k_idx spin = formatQ3 |3.81 / a| ++ " m_e") := by
  have hcalc : calc_effective_mass fit bs band_idx k_idx spin = massFromCoeff a := by
    unfold calc_effective_mass calc_effective_mass_core
    rw [hb]
    simp only [bind, Except.bind]
    rw [if_neg hlen, hfit]
    rfl
  constructor
  · intro h; rw [hcalc, massFromCoeff, if_pos h]
  · intro h; rw [hcalc, massFromCoeff, if_neg (not_lt.mpr h)]

/-- C4 witness: a fit returning the coefficient `1/20000` produces the
very-heavy sentinel. -/
theorem near_zero_coefficient_guard_witness :
    calc_effective_mass fitHeavyW bsW 0 2 Spin.up = "Heavy (>10 m_e)" :=
  (near_zero_coefficient_guard fitHeavyW bsW 0 2 Spin.up [0, 0, 0] (1 / 20000) []
    rfl (by decide) rfl).1 (by rw [abs_lt]; constructor <;> norm_num)

/-- C9: the estimator at coefficient `a = 0.1` (which satisfies
`1e-4 ≤ |a| < 0.381`) yields the numeric string `"38.100 m_e"`, exceeding
10 m_e, not the sentinel; the sentinel arises exactly when `|a| < 1e-4`,
i.e. only for masses above 38100 m_e. -/
theorem heavy_sentinel_threshold :
    massFromCoeff (1 / 10) = "38.100 m_e" ∧
    (∀ a : ℚ, massFromCoeff a = "Heavy (>10 m_e)" ↔ |a| < 1 / 10000) ∧
    (∀ a : ℚ, a ≠ 0 → |a| < 1 / 10000 → 38100 < |3.81 / a|) := by
  refine ⟨?_, ?_, ?_⟩
  · rw [massFromCoeff, if_neg (by rw [not_lt, le_abs]; left; norm_num)]
    have h : |(3.81 : ℚ) / (1 / 10)| = 381 / 10 := by
      rw [abs_of_pos] <;> norm_num
    rw [h, formatQ3]
    norm_num [round_eq]
    decide
  · intro a
    constructor
    · intro h
      by_contra hc
      rw [massFromCoeff, if_neg hc] at h
      exact append_m_e_ne_heavy _ h
    · intro h
      rw [massFromCoeff, if_pos h]
  · intro a ha h
    have h0 : 0 < |a| := abs_pos.mpr ha
    have h38 : (38100 : ℚ) = 3.81 / (1 / 10000) := by norm_num
    rw [abs_div, abs_of_pos (show (0:ℚ) < 3.81 by norm_num), h38]
    exact div_lt_div_of_pos_left (by norm_num) h0 h

/-- C9 witness: concrete instances of the threshold behavior. -/
theorem heavy_sentinel_threshold_witness :
    massFromCoeff (1 / 10) = "38.100 m_e" ∧ 38100 < |(3.81 : ℚ) / (1 / 20000)| :=
  ⟨heavy_sentinel_threshold.1,
   heavy_sentinel_threshold.2.2 (1 / 20000) (by norm_num)
     (by rw [abs_lt]; constructor <;> norm_num)⟩

/-- C5: every record classified as metallic short-circuits: the context is
the metal context (reporting electronic type Metal and a band gap of
`0.0000 eV`), and the effective-mass path is never invoked — the result is
independent of the fit oracle. -/
theorem metal_short_circuit (fit fit2 : PolyFit) (input : Except String LoadedData)
    (data : LoadedData) (bs : BSObject)
    (hin : input = Except.ok data) (hdict : data.fromDict = Except.ok bs)
    (hm : bs.is_metal = true) :
    process_physics_data fit input =
      metalContext (data.material_id.getD "Unknown")
        (data.formula_pretty.getD "Unknown") ∧
    strContains (process_physics_data fit input) "Electronic Type: Metal" = true ∧
    strContains (process_physics_data fit input) "Band Gap: 0.0000 eV" = true ∧
    process_physics_data fit2 input = process_physics_data fit input := by
  subst hin
  have hrun : ∀ f : PolyFit, process_physics_data f (Except.ok data) =
      metalContext (data.material_id.getD "Unknown")
        (data.formula_pretty.getD "Unknown") := by
    intro f
    unfold process_physics_data process_physics_data_core
    simp only [bind, Except.bind]
    rw [hdict]
    simp only [hm, if_true]
    rfl
  refine ⟨hrun fit, ?_, ?_, by rw [hrun fit2, hrun fit]⟩
  · rw [hrun fit]
    unfold metalContext
    exact strContains_append_left _ _ _ (by decide)
  · rw [hrun fit]
    unfold metalContext
    exact strContains_append_left _ _ _ (by decide)

/-- C5 witness: a concrete metallic record. -/
theorem metal_short_circuit_witness :
    process_physics_data fitErrW (Except.ok dataMetalW) = metalContext "mp-7" "Si" ∧
    strContains (process_physics_data fitErrW (Except.ok dataMetalW))
      "Electronic Type: Metal" = true ∧
    strContains (process_physics_data fitErrW (Except.ok dataMetalW))
      "Band Gap: 0.0000 eV" = true ∧
    process_physics_data fitHeavyW (Except.ok dataMetalW) =
      process_physics_data fitErrW (Except.ok dataMetalW) :=
  metal_short_circuit fitErrW fitHeavyW (Except.ok dataMetalW)
    dataMetalW bsMetalW rfl rfl rfl

/-- C6: extraction is total at its caller boundary: any exception inside
the effective-mass fit becomes the `"CalcErr"` sentinel, and any exception
anywhere else in extraction becomes a string beginning with `"Error:"`; in
all cases extraction returns a string, so no exception propagates. -/
theorem extraction_never_raises (fit : PolyFit) :
    (∀ (bs : BSObject) (band_idx : Nat) (k_idx : Int) (spin : Spin) (e : String),
      calc_effective_mass_core fit bs band_idx k_idx spin = Except.error e →
      calc_effective_mass fit bs band_idx k_idx spin = "CalcErr") ∧
    (∀ (input : Except String LoadedData) (e : String),
      (input >>= process_physics_data_core fit) = Except.error e →
      process_physics_data fit input = "Error: " ++ e ∧
      strStartsWith (process_physics_data fit input) "Error:" = true) ∧
    (∀ input : Except String LoadedData,
      (∃ s, (input >>= process_physics_data_core fit) = Except.ok s ∧
        process_physics_data fit input = s) ∨
      (∃ e, process_physics_data fit input = "Error: " ++ e)) ∧
    (∀ (data : LoadedData) (e : String), data.fromDict = Except.error e →
      strStartsWith (process_physics_data fit (Except.ok data)) "Error:" = true) := by
  refine ⟨?_, ?_, ?_, ?_⟩
  · intro bs bi ki sp e h
    unfold calc_effective_mass
    rw [h]
  · intro input e h
    have hp : process_physics_data fit input = "Error: " ++ e := by
      unfold process_physics_data
      rw [h]
    exact ⟨hp, by rw [hp]; exact strStartsWith_append "Error: " e "Error:" (by decide)⟩
  · intro input
    rcases h : (input >>= process_physics_data_core fit) with e | s
    · right
      exact ⟨e, by unfold process_physics_data; rw [h]⟩
    · left
      refine ⟨s, rfl, ?_⟩
      unfold process_physics_data
      rw [h]
  · intro data e hdict
    have hp : process_physics_data fit (Except.ok data) =
        ("Error: Invalid BandStructure Data (" ++ e) ++ ")" := by
      unfold process_physics_data process_physics_data_core
      simp only [bind, Except.bind]
      rw [hdict]
      rfl
    rw [hp]
    exact strStartsWith_append _ _ _ (strStartsWith_append _ _ _ (by decide))

/-- C6 witness: a failing file read surfaces as an `Error:` string. -/
theorem extraction_never_raises_witness :
    process_physics_data fitErrW (Except.error "boom") = "Error: " ++ "boom" ∧
    strStartsWith (process_physics_data fitErrW (Except.error "boom"))
      "Error:" = true :=
  (extraction_never_raises fitErrW).2.1 (Except.error "boom") "boom" rfl

theorem download_skip (mpr : MPOracle) (fs : AcqFS) (output_dir mp_id : String)
    (h : (fs (outputFile output_dir mp_id)).isSome = true) :
    download_single_material_data mpr fs output_dir mp_id =
      (⟨mp_id, DLStatus.skipped, some "exists"⟩, fs, []) := by
  unfold download_single_material_data
  rw [if_pos h]

theorem writeFS_isSome (fs : AcqFS) (path : String) (v : FileVal) (p : String)
    (h : (fs p).isSome = true) : ((writeFS fs path v) p).isSome = true := by
  unfold writeFS
  split_ifs <;> simp [h]

theorem dlExcept_preserves (fs : AcqFS) (i e p : String) (calls : List NetCall)
    (h : (fs p).isSome = true) :
    (((dlExcept fs i e calls).2.1) p).isSome = true := by
  unfold dlExcept appendLog
  split_ifs
  · exact h
  · exact writeFS_isSome _ _ _ _ h

theorem download_preserves (mpr : MPOracle) (fs : AcqFS) (d i p : String)
    (h : (fs p).isSome = true) :
    (((download_single_material_data mpr fs d i).2.1) p).isSome = true := by
  simp only [download_single_material_data]
  split_ifs with hex
  · exact h
  · split
    · exact dlExcept_preserves _ _ _ _ _ h
    · exact h
    · split
      · exact dlExcept_preserves _ _ _ _ _ h
      · exact h
      · exact writeFS_isSome _ _ _ _ h

theorem download_calls_tagged (mpr : MPOracle) (fs : AcqFS) (d i : String) :
    ∀ c ∈ (download_single_material_data mpr fs d i).2.2, c.mpId = i := by
  intro c hc
  simp only [download_single_material_data] at hc
  split_ifs at hc with hex
  · simp at hc
  · split at hc
    · unfold dlExcept at hc
      split_ifs at hc <;> simp at hc <;> subst hc <;> rfl
    · simp at hc
      subst hc
      rfl
    · split at hc
      · unfold dlExcept at hc
        split_ifs at hc <;> simp at hc <;> rcases hc with hc | hc <;> subst hc <;> rfl
      · simp at hc
        rcases hc with hc | hc <;> subst hc <;> rfl
      · simp at hc
        rcases hc with hc | hc <;> subst hc <;> rfl

theorem batch_calls_avoid_existing (mpr : MPOracle) (ids : List String) :
    ∀ (fs : AcqFS) (mp_id : String),
      (fs (outputFile BAND_DIR mp_id)).isSome = true →
      ∀ c ∈ (batch_download_bandstructures mpr fs ids).2.2, c.mpId ≠ mp_id := by
  induction ids with
  | nil =>
    intro fs mp_id h c hc
    simp [batch_download_bandstructures] at hc
  | cons i rest ih =>
    intro fs mp_id h c hc
    simp only [batch_download_bandstructures, List.mem_append] at hc
    rcases hc with hc | hc
    · by_cases hii : i = mp_id
      · subst hii
        rw [download_skip mpr fs BAND_DIR i h] at hc
        simp at hc
      · rw [download_calls_tagged mpr fs BAND_DIR i c hc]
        exact hii
    · exact ih _ _ (download_preserves mpr fs BAND_DIR i _ h) c hc

/-- C1: when the deterministic cache path of an identifier already exists,
acquisition returns the `skipped` outcome immediately, performs no network
access, and leaves the filesystem (hence the cached file) unchanged; and a
batch run over any identifier list makes no fetch call for that identifier. -/
theorem acquisition_skip_no_refetch (mpr : MPOracle) (fs : AcqFS)
    (output_dir mp_id : String)
    (h : (fs (outputFile output_dir mp_id)).isSome = true) :
    download_single_material_data mpr fs output_dir mp_id =
      (⟨mp_id, DLStatus.skipped, some "exists"⟩, fs, []) ∧
    (output_dir = BAND_DIR → ∀ (ids : List String),
      ∀ c ∈ (batch_download_bandstructures mpr fs ids).2.2, c.mpId ≠ mp_id) := by
  refine ⟨download_skip mpr fs output_dir mp_id h, ?_⟩
  rintro rfl ids
  exact batch_calls_avoid_existing mpr ids fs mp_id h

/-- C1 witness: a concrete cache hit. -/
theorem acquisition_skip_no_refetch_witness :
    download_single_material_data mprNotFoundW fsWithFileW BAND_DIR "mp-1" =
      (⟨"mp-1", DLStatus.skipped, some "exists"⟩, fsWithFileW, []) :=
  (acquisition_skip_no_refetch mprNotFoundW fsWithFileW BAND_DIR "mp-1"
    (by decide)).1

/-- C7: an empty summary lookup yields `failed` with no file written, while
a successful summary lookup followed by a null band-structure payload
yields `filtered` (also with no file written); the two outcomes are
distinct. -/
theorem absence_classified_distinctly (mpr : MPOracle) (fs : AcqFS)
    (output_dir mp_id : String)
    (h : fs (outputFile output_dir mp_id) = none) :
    (mpr.summarySearch mp_id = Except.ok [] →
      download_single_material_data mpr fs output_dir mp_id =
        (⟨mp_id, DLStatus.failed, some "material not found in summary"⟩, fs,
         [NetCall.summarySearch mp_id])) ∧
    (∀ (meta : SummaryDoc) (rest : List SummaryDoc),
      mpr.summarySearch mp_id = Except.ok (meta :: rest) →
      mpr.getBandstructure mp_id = Except.ok none →
      download_single_material_data mpr fs output_dir mp_id =
        (⟨mp_id, DLStatus.filtered, some "no bandstructure data available"⟩, fs,
         [NetCall.summarySearch mp_id, NetCall.getBandstructure mp_id])) ∧
    DLStatus.failed ≠ DLStatus.filtered := by
  have hex : ¬ ((fs (outputFile output_dir mp_id)).isSome = true) := by
    rw [h]; simp
  refine ⟨?_, ?_, by decide⟩
  · intro hs
    unfold download_single_material_data
    rw [if_neg hex, hs]
  · intro meta rest hs hb
    unfold download_single_material_data
    rw [if_neg hex, hs, hb]

/-- C7 witness: a concrete not-found identifier is classified `failed`. -/
theorem absence_classified_distinctly_witness :
    download_single_material_data mprNotFoundW emptyAcqFS BAND_DIR "mp-9" =
      (⟨"mp-9", DLStatus.failed, some "material not found in summary"⟩, emptyAcqFS,
       [NetCall.summarySearch "mp-9"]) :=
  (absence_classified_distinctly mprNotFoundW emptyAcqFS BAND_DIR "mp-9" rfl).1 rfl

theorem tally_sum (c : BatchCounters) (s : DLStatus) :
    countersSum (tally c s) = countersSum c + 1 := by
  cases s <;> simp [tally, countersSum] <;> omega

theorem batch_counters_total (mpr : MPOracle) (ids : List String) :
    ∀ fs : AcqFS,
      countersSum (batch_download_bandstructures mpr fs ids).1 = ids.length := by
  induction ids with
  | nil => intro fs; rfl
  | cons i rest ih =>
    intro fs
    simp only [batch_download_bandstructures]
    rw [tally_sum, ih]
    rfl

theorem runBatch_total (fit : PolyFit) (loadFile : String → Except String LoadedData)
    (api : QwenApi) (files : List String) :
    ∀ fs : GenFS, (runBatch fit loadFile api fs files).1 +
      (runBatch fit loadFile api fs files).2.1 = files.length := by
  induction files with
  | nil => intro fs; rfl
  | cons f rest ih =>
    intro fs
    simp only [runBatch, List.length_cons]
    have h := ih ((process_single_file fit loadFile api fs f).2.1)
    cases hr : (process_single_file fit loadFile api fs f).1 <;>
      simp only [hr, Bool.false_eq_true, if_false, if_true] <;> omega

theorem filter_not_length (p : α → Bool) (l : List α) :
    (l.filter p).length + (l.filter (fun a => !p a)).length = l.length := by
  induction l with
  | nil => rfl
  | cons a t ih =>
    cases hpa : p a <;> simp [List.filter_cons, hpa] <;> omega

theorem pendingSplit_length (input output : List String) :
    (pendingSplit input output).1.length + (pendingSplit input output).2.length =
      (allJsons input).length := by
  unfold pendingSplit
  rw [List.partition_eq_filter_filter]
  exact filter_not_length _ _

/-- C8 (amended): the acquisition counters always sum to the size of the
identifier list; in the generation stage, `success + failed` equals the
number of files attempted this run, i.e. `min MAX_BATCH_SIZE pending`, and
`success + failed + skipped` equals the total input-file count exactly when
the pending count does not exceed `MAX_BATCH_SIZE`. -/
theorem outcome_counters_amended :
    (∀ (mpr : MPOracle) (fs : AcqFS) (ids : List String),
      countersSum (batch_download_bandstructures mpr fs ids).1 = ids.length) ∧
    (∀ (fit : PolyFit) (loadFile : String → Except String LoadedData)
       (api : QwenApi) (fs : GenFS) (input_listing output_listing : List String)
       (cs cf sk : Nat),
      main_generation fit loadFile api fs input_listing output_listing =
        some (cs, cf, sk) →
      cs + cf = min MAX_BATCH_SIZE (pendingSplit input_listing output_listing).1.length ∧
      sk = (pendingSplit input_listing output_listing).2.length ∧
      ((pendingSplit input_listing output_listing).1.length ≤ MAX_BATCH_SIZE →
        cs + cf + sk = (allJsons input_listing).length)) := by
  constructor
  · intro mpr fs ids
    exact batch_counters_total mpr ids fs
  · intro fit loadFile api fs input output cs cf sk hmain
    simp only [main_generation] at hmain
    split_ifs at hmain with h1 h2 h3
    · simp only [Option.some.injEq, Prod.mk.injEq] at hmain
      obtain ⟨hcs, hcf, hsk⟩ := hmain
      have hrt := runBatch_total fit loadFile api
        ((pendingSplit input output).1.take MAX_BATCH_SIZE) fs
      have hlt : ((pendingSplit input output).1.take MAX_BATCH_SIZE).length =
          min MAX_BATCH_SIZE (pendingSplit input output).1.length :=
        List.length_take ..
      have hpl := pendingSplit_length input output
      refine ⟨by omega, by omega, ?_⟩
      intro hle
      omega
    · exact absurd (show MAX_BATCH_SIZE ≠ 0 by norm_num [MAX_BATCH_SIZE]) h3

/-- C8 witness: the acquisition counters sum to the batch size on a
concrete two-identifier batch. -/
theorem outcome_counters_amended_witness :
    countersSum (batch_download_bandstructures mprNotFoundW emptyAcqFS
      ["mp-1", "mp-2"]).1 = 2 :=
  outcome_counters_amended.1 mprNotFoundW emptyAcqFS ["mp-1", "mp-2"]

/-- C8 counterexample: with six pending inputs and none processed, the
generation report counts only the five attempted files plus zero skipped,
so the reported counters sum to 5, not the batch size 6. -/
theorem outcome_counters_counterexample :
    main_generation fitErrW loadMetalW apiOkW emptyGenFS jsons6 [] =
      some (5, 0, 0) ∧
    (allJsons jsons6).length = 6 ∧ 5 + 0 + 0 ≠ 6 :=
  ⟨rfl, rfl, by decide⟩

/-- C2: an artifact appears at the deterministic artifact path only if both
conversation rounds returned content; if the collaborator returns no
content at round 1 or at round 2, the operation returns failure and the
filesystem is unchanged (no file, not even a partial one, is created), so
the material stays pending. -/
theorem generation_persists_only_on_success (fit : PolyFit)
    (loadFile : String → Except String LoadedData) (api : QwenApi)
    (fs : GenFS) (json_filename : String) :
    ((process_single_file fit loadFile api fs json_filename).2.1 ≠ fs →
      (process_single_file fit loadFile api fs json_filename).1 = true ∧
      ∃ r1 r2,
        api (round1Messages (contextOf fit loadFile json_filename)) = some r1 ∧
        api (round2Messages (contextOf fit loadFile json_filename) r1) = some r2 ∧
        (process_single_file fit loadFile api fs json_filename).2.1 =
          writeGenFS fs (mdPathOf json_filename) r2) ∧
    (strContains (contextOf fit loadFile json_filename) "Error" = false →
      api (round1Messages (contextOf fit loadFile json_filename)) = none →
      process_single_file fit loadFile api fs json_filename =
        (false, fs, [round1Messages (contextOf fit loadFile json_filename)])) ∧
    (∀ r1 : String,
      strContains (contextOf fit loadFile json_filename) "Error" = false →
      api (round1Messages (contextOf fit loadFile json_filename)) = some r1 →
      api (round2Messages (contextOf fit loadFile json_filename) r1) = none →
      process_single_file fit loadFile api fs json_filename =
        (false, fs, [round1Messages (contextOf fit loadFile json_filename),
                     round2Messages (contextOf fit loadFile json_filename) r1])) ∧
    (strContains (contextOf fit loadFile json_filename) "Error" = true →
      process_single_file fit loadFile api fs json_filename = (false, fs, [])) := by
  by_cases hc : strContains (contextOf fit loadFile json_filename) "Error" = true
  · have hres : process_single_file fit loadFile api fs json_filename =
        (false, fs, []) := by
      simp only [process_single_file]
      rw [if_pos hc]
    refine ⟨?_, ?_, ?_, fun _ => hres⟩
    · intro hne
      exact absurd (by rw [hres]) hne
    · intro hcf
      rw [hcf] at hc
      cases hc
    · intro r1 hcf
      rw [hcf] at hc
      cases hc
  · have hcf : strContains (contextOf fit loadFile json_filename) "Error" = false := by
      revert hc
      cases strContains (contextOf fit loadFile json_filename) "Error" <;> simp
    cases h1 : api (round1Messages (contextOf fit loadFile json_filename)) with
    | none =>
      have hres : process_single_file fit loadFile api fs json_filename =
          (false, fs, [round1Messages (contextOf fit loadFile json_filename)]) := by
        simp only [process_single_file]
        rw [if_neg hc, h1]
      refine ⟨?_, fun _ _ => hres, ?_, ?_⟩
      · intro hne
        exact absurd (by rw [hres]) hne
      · intro r1 _ hr1
        cases hr1
      · intro hct
        rw [hct] at hcf
        cases hcf
    | some r1 =>
      cases h2 : api (round2Messages (contextOf fit loadFile json_filename) r1) with
      | none =>
        have hres : process_single_file fit loadFile api fs json_filename =
            (false, fs,
             [round1Messages (contextOf fit loadFile json_filename),
              round2Messages (contextOf fit loadFile json_filename) r1]) := by
          simp only [process_single_file]
          rw [if_neg hc, h1]
          simp only [h2]
        refine ⟨?_, ?_, ?_, ?_⟩
        · intro hne
          exact absurd (by rw [hres]) hne
        · intro _ hr1
          cases hr1
        · intro r1b _ hr1 hr2
          cases hr1
          exact hres
        · intro hct
          rw [hct] at hcf
          cases hcf
      | some r2 =>
        have hres : process_single_file fit loadFile api fs json_filename =
            (true, writeGenFS fs (mdPathOf json_filename) r2,
             [round1Messages (contextOf fit loadFile json_filename),
              round2Messages (contextOf fit loadFile json_filename) r1]) := by
          simp only [process_single_file]
          rw [if_neg hc, h1]
          simp only [h2]
        refine ⟨?_, ?_, ?_, ?_⟩
        · intro _
          rw [hres]
          exact ⟨rfl, r1, r2, rfl, h2, rfl⟩
        · intro _ hr1
          cases hr1
        · intro r1b _ hr1 hr2
          cases hr1
          rw [h2] at hr2
          cases hr2
        · intro hct
          rw [hct] at hcf
          cases hcf

/-- C2 witness: round-1 failure writes nothing and reports failure. -/
theorem generation_persists_only_on_success_witness :
    process_single_file fitErrW loadMetalW apiFailW emptyGenFS "mp-7.json" =
      (false, emptyGenFS,
       [round1Messages (contextOf fitErrW loadMetalW "mp-7.json")]) :=
  (generation_persists_only_on_success fitErrW loadMetalW apiFailW emptyGenFS
    "mp-7.json").2.1 (by decide) rfl

theorem findKIndexFrom_none (t : ℚ × ℚ × ℚ) (kps : List (ℚ × ℚ × ℚ)) :
    ∀ i : Int, 0 ≤ i →
      (findKIndexFrom t kps i = -1 ↔ ∀ k ∈ kps, ¬ distSq k t < 1 / 1000000) := by
  induction kps with
  | nil =>
    intro i hi
    simp [findKIndexFrom]
  | cons k ks ih =>
    intro i hi
    simp only [findKIndexFrom]
    split_ifs with hd
    · constructor
      · intro hcontra
        omega
      · intro hall
        exact ((hall k (List.mem_cons_self k ks)) hd).elim
    · rw [ih (i + 1) (by omega)]
      constructor
      · intro hall k2 hk2
        rcases List.mem_cons.mp hk2 with rfl | hm
        · exact hd
        · exact hall k2 hm
      · intro hall k2 hm
        exact hall k2 (List.mem_cons_of_mem _ hm)

/-- C10 (amended): the mass field is `"Unknown"` whenever neither spin
channel is present (this check precedes k-point matching); when the
selected spin channel is present with a nonempty index list, the field is
`"N/A"` whenever no k-point lies within Euclidean distance `1e-3` of the
band-edge k-point (the loop leaves `k_idx = -1` exactly in that case, and
no fit is attempted). -/
theorem band_edge_sentinels (fit : PolyFit) (bs : BSObject) (info : EdgeInfo) :
    (info.band_index Spin.up = none → info.band_index Spin.down = none →
      analyze_band_edge fit bs info = Except.ok "Unknown") ∧
    (∀ (idxs : List Nat) (b : Nat),
      info.band_index
        (if (info.band_index Spin.up).isSome then Spin.up else Spin.down) =
          some idxs →
      idxs.head? = some b →
      findKIndex bs.kpoints info.kpoint = -1 →
      analyze_band_edge fit bs info = Except.ok "N/A") ∧
    (∀ (kps : List (ℚ × ℚ × ℚ)) (t : ℚ × ℚ × ℚ),
      findKIndex kps t = -1 ↔ ∀ k ∈ kps, ¬ distSq k t < 1 / 1000000) := by
  refine ⟨?_, ?_, ?_⟩
  · intro h1 h2
    simp [analyze_band_edge, h1, h2]
  · intro idxs b hidx hhead hfind
    simp only [analyze_band_edge, hidx, hhead, hfind]
    simp
  · intro kps t
    exact findKIndexFrom_none t kps 0 (by omega)

/-- C10 counterexample: with no spin channel present and (vacuously) no
matching k-point, the mass field is `"Unknown"`, not `"N/A"` — the
`Unknown` check takes precedence over the k-point-matching check. -/
theorem band_edge_sentinels_counterexample :
    analyze_band_edge fitErrW bsMetalW infoW = Except.ok "Unknown" ∧
    (∀ k ∈ bsMetalW.kpoints, ¬ distSq k infoW.kpoint < 1 / 1000000) ∧
    Except.ok "Unknown" ≠ (Except.ok "N/A" : Except String String) := by
  refine ⟨rfl, ?_, by intro h; exact absurd (Except.ok.inj h) (by decide)⟩
  intro k hk
  simp [bsMetalW] at hk

/-- C10 witness: the amended first clause at a concrete record. -/
theorem band_edge_sentinels_witness :
    analyze_band_edge fitErrW bsW infoW = Except.ok "Unknown" :=
  (band_edge_sentinels fitErrW bsW infoW).1 rfl rfl

end Aotu
